import Mathlib

/-!
# Verification of `smart_task_generator.py`

A shallow embedding of the smart task generator pipeline: the FACT checker
(code database and duplicate check), the research engine, the ADR generator,
and the task-synthesis orchestrator, together with proofs of the specified
properties.

Files are modelled as a directory string, a file name, and a list of lines;
the raw file content is the lines joined with a newline character.  Paths
are strings; `str(path)` of a file is `dir ++ "/" ++ name`.
-/

namespace SmartTaskGen

/-- A source file in the modelled filesystem: its directory (full path of the
containing directory), its file name (final path component, no slash), and
its text content as a list of lines (the raw text is the lines joined by
newline, as recovered by `content.split('\n')` in the source). -/
structure SrcFile where
  dir : String
  name : String
  lines : List String
deriving DecidableEq, Repr

/-- The filesystem: the list of files, in directory-enumeration order. -/
abbrev FileSystem := List SrcFile

/-- `str(file_path)`: the full path of a file. -/
def fullPath (f : SrcFile) : String :=
  f.dir ++ "/" ++ f.name

/-- Raw content of a file as a character list: lines joined by newline
(`read_text` in the source). -/
def contentChars (f : SrcFile) : List Char :=
  List.intercalate ['\n'] (f.lines.map String.data)

/-- Python's substring test `pat in hay` on character lists. -/
def containsSub (pat : List Char) : List Char → Bool
  | [] => pat.isEmpty
  | c :: rest => pat.isPrefixOf (c :: rest) || containsSub pat rest

/-- Substring test on strings: Python's `pat in hay`. -/
def strContains (hay pat : String) : Bool :=
  containsSub pat.data hay.data

/-- Lower-casing a string (`str.lower()` on the ASCII inputs in scope). -/
def lowerStr (s : String) : String :=
  ⟨s.data.map Char.toLower⟩

/-- `pathlib.Path.stem` on a file name: the name with its last dot-suffix
removed, where a suffix exists only if a dot occurs after the first
character (so `".erl"` has stem `".erl"`, `"a.erl"` has stem `"a"`). -/
def stemChars (name : List Char) : List Char :=
  if (name.drop 1).contains '.' then
    name.take (name.length - 1 - (name.reverse.takeWhile (· ≠ '.')).length)
  else
    name

/-- `Path.stem` as a string. -/
def stem (name : String) : String :=
  ⟨stemChars name.data⟩

/-- The glob pattern `*.erl`: the name ends in `.erl`. -/
def erlName (name : String) : Bool :=
  List.isSuffixOf ".erl".data name.data

/-- A directory matches `rootPath.rglob(...)`'s scope iff it is the root
itself or lies strictly below it. -/
def underRoot (root dir : String) : Bool :=
  dir = root || List.isPrefixOf (root ++ "/").data dir.data

/-- `rootPath.rglob("*.erl")`: every `.erl` file at or below `root`. -/
def rglobErl (fs : FileSystem) (root : String) : List SrcFile :=
  fs.filter (fun f => underRoot root f.dir && erlName f.name)

/-- `dir.glob("*.erl")`: every `.erl` file directly inside `dir`
(non-recursive). -/
def globErl (fs : FileSystem) (dir : String) : List SrcFile :=
  fs.filter (fun f => f.dir = dir && erlName f.name)

/-! ## Routine extraction (`re.findall(r'^(\w+)\([^)]*\)\s*->', content, re.MULTILINE)`) -/

/-- Python's `\w` on the ASCII inputs in scope. -/
def isWordChar (c : Char) : Bool :=
  c.isAlphanum || c = '_'

/-- Python's `\s` on the ASCII inputs in scope. -/
def isSpaceChar (c : Char) : Bool :=
  c = ' ' || c = '\t' || c = '\n' || c = '\x0b' || c = '\x0c' || c = '\r'

/-- Try to match `(\w+)\([^)]*\)\s*->` at the head of `l`; on success return
the captured routine name and the remainder after the match.  The regex is
deterministic here: each greedy piece is followed by a literal its character
class excludes, so no backtracking can occur. -/
def matchFun (l : List Char) : Option (List Char × List Char) :=
  let name := l.takeWhile isWordChar
  if name.isEmpty then none
  else
    match l.drop name.length with
    | '(' :: r1 =>
      let inner := r1.takeWhile (· ≠ ')')
      match r1.drop inner.length with
      | ')' :: r2 =>
        let sp := r2.takeWhile isSpaceChar
        match r2.drop sp.length with
        | '-' :: '>' :: r3 => some (name, r3)
        | _ => none
      | _ => none
    | _ => none

/-- `re.findall` driver: scan left to right, attempting a match only at
line starts (`^` with `re.MULTILINE`); after a match, resume after it
(non-overlapping).  `fuel` bounds the recursion; every step consumes at
least one character, so `l.length` fuel always suffices. -/
def findFunsAux : Nat → List Char → Bool → List (List Char)
  | 0, _, _ => []
  | _ + 1, [], _ => []
  | fuel + 1, c :: rest, atStart =>
    if atStart then
      match matchFun (c :: rest) with
      | some (nm, r) => nm :: findFunsAux fuel r false
      | none => findFunsAux fuel rest (c = '\n')
    else
      findFunsAux fuel rest (c = '\n')

/-- All routine names declared in a content string, in match order. -/
def findFuns (l : List Char) : List String :=
  (findFunsAux l.length l true).map (fun cs => ⟨cs⟩)

/-! ## FactChecker -/

/-- One entry of the FACT code database, keyed by full file path.  The
source also stores behaviour declarations, gen_server hook occurrences and
an md5 content hash in each entry; none of those fields is ever read by the
pipeline, so they are not modelled. -/
structure DbEntry where
  path : String
  functions : List String
deriving DecidableEq, Repr

/-- `FactChecker._build_code_database`: one entry per `.erl` file found by
`rglob` from the Singularity root, in enumeration order. -/
def build_code_database (fs : FileSystem) (root : String) : List DbEntry :=
  (rglobErl fs root).map (fun f => ⟨fullPath f, findFuns (contentChars f)⟩)

/-- One finding of the duplicate check. -/
structure Finding where
  file : String
  type : String
  confidence : ℚ
deriving DecidableEq, Repr

/-- The verdict returned by `FactChecker.check_implementation_exists`. -/
structure Verdict where
  exists_ : Bool
  findings : List Finding
  recommendation : String
deriving DecidableEq, Repr

/-- `FactChecker.check_implementation_exists(function_name, module_pattern)`:
each database entry contributes a `function_exists` finding (confidence 0.9)
when `function_name` is among its declared routines, and a `similar_module`
finding (confidence 0.7) when `module_pattern` occurs as a substring of its
path. -/
def check_implementation_exists (db : List DbEntry) (function_name module_pattern : String) :
    Verdict :=
  let findings := db.flatMap (fun e =>
    (if function_name ∈ e.functions then
      [⟨e.path, "function_exists", (9 : ℚ) / 10⟩] else []) ++
    (if strContains e.path module_pattern then
      [⟨e.path, "similar_module", (7 : ℚ) / 10⟩] else []))
  { exists_ := decide (0 < findings.length)
    findings := findings
    recommendation := if findings.isEmpty then "implement" else "skip" }

/-! ## ResearchEngine -/

/-- A research note: the list-valued entries of the knowledge-base record
(key name paired with its string list) and the recommendation string. -/
structure ResearchNote where
  entries : List (String × List String)
  recommendation : String
deriving DecidableEq, Repr

/-- `ResearchEngine.research_erlang_pattern`: static knowledge base keyed by
pattern, with a generic fallback recommendation for unknown patterns. -/
def research_erlang_pattern (pattern : String) : ResearchNote :=
  if pattern = "consistent_hashing" then
    { entries :=
        [("algorithms", ["SHA-1 ring", "Jump consistent hash", "Rendezvous hashing"]),
         ("erlang_libs", ["riak_core", "hash_ring", "consistent_hash"])]
      recommendation := "Use riak_core for production-grade consistent hashing" }
  else if pattern = "gossip_protocol" then
    { entries :=
        [("algorithms", ["Epidemic broadcast", "Anti-entropy", "Rumor mongering"]),
         ("erlang_libs", ["partisan", "plumtree", "scamp"])]
      recommendation := "Use plumtree for efficient gossip with tree optimization" }
  else if pattern = "rust_nif" then
    { entries :=
        [("patterns", ["Resource management", "Dirty schedulers", "Message passing"]),
         ("best_practices", ["Use ResourceArc", "Handle timeouts", "Avoid blocking"])]
      recommendation := "Use rustler with proper resource lifecycle management" }
  else if pattern = "supervision" then
    { entries :=
        [("strategies", ["one_for_one", "one_for_all", "rest_for_one", "simple_one_for_one"])]
      recommendation := "Use one_for_one for independent processes like memory shards" }
  else
    { entries := []
      recommendation := "Research " ++ pattern ++ " patterns in Erlang/OTP documentation" }

/-! ## ADRGenerator -/

/-- Positive/negative consequences of an ADR. -/
structure Consequences where
  positive : List String
  negative : List String
deriving DecidableEq, Repr

/-- An ADR template as returned by `ADRGenerator.generate_adr` (before the
orchestrator attaches `id` and `status`). -/
structure AdrTemplate where
  title : String
  context : String
  options : List String
  decision : String
  rationale : String
  consequences : Consequences
deriving DecidableEq, Repr

/-- The `supervision_strategy` ADR template. -/
def supervisionTemplate : AdrTemplate :=
  { title := "Memory Service Supervision Strategy"
    context := "Need to choose supervision strategy for memory shards and workers"
    options :=
      ["one_for_one: Independent restarts (recommended)",
       "one_for_all: Restart all on failure",
       "rest_for_one: Restart failed and subsequent processes"]
    decision := "one_for_one"
    rationale := "Memory shards should be independent - one shard failure should not affect others"
    consequences :=
      { positive := ["Fault isolation", "Better availability"]
        negative := ["Possible data inconsistency during restart"] } }

/-- The `consistent_hashing` ADR template. -/
def consistentHashingTemplate : AdrTemplate :=
  { title := "Consistent Hashing Algorithm Choice"
    context := "Need consistent hashing for memory shard distribution"
    options :=
      ["SHA-1 ring: Simple but uneven distribution",
       "Jump consistent hash: Even distribution, complex rebalancing",
       "Rendezvous hashing: Simple, good for small clusters"]
    decision := "SHA-1 ring with virtual nodes"
    rationale := "Balance between simplicity and distribution quality"
    consequences :=
      { positive := ["Well-understood algorithm", "Good Erlang libraries"]
        negative := ["Requires virtual nodes for even distribution"] } }

/-- The `rust_nif_integration` ADR template. -/
def rustNifTemplate : AdrTemplate :=
  { title := "Rust NIF Integration Pattern"
    context := "Need safe and efficient Rust NIF integration"
    options :=
      ["Direct NIFs: Fast but unsafe",
       "Resource pools: Safe with lifecycle management",
       "Port drivers: Safe but slower"]
    decision := "Resource pools with ResourceArc"
    rationale := "Provides safety guarantees while maintaining performance"
    consequences :=
      { positive := ["Memory safety", "Proper lifecycle management"]
        negative := ["Slightly more complex implementation"] } }

/-- `ADRGenerator.generate_adr(context)`: reads `context['pattern']`
(defaulting to `"default"`), looks it up in the static template table, and
falls back to the supervision-strategy template for unknown keys. -/
def generate_adr (context : List (String × String)) : AdrTemplate :=
  let pattern := ((context.lookup "pattern").getD "default")
  if pattern = "supervision_strategy" then supervisionTemplate
  else if pattern = "consistent_hashing" then consistentHashingTemplate
  else if pattern = "rust_nif_integration" then rustNifTemplate
  else supervisionTemplate

/-- A finished ADR: a template plus the `id` and `status` the orchestrator
assigns. -/
structure Adr extends AdrTemplate where
  id : String
  status : String
deriving DecidableEq, Repr

/-- `f"ADR-{n:03d}"`. -/
def adrId (n : Nat) : String :=
  "ADR-" ++ (if n < 10 then "00" else if n < 100 then "0" else "") ++ toString n

/-- `SmartTaskGenerator._generate_required_adrs`: the three fixed decision
topics, each synthesized and given a sequential id and `needs_approval`
status. -/
def _generate_required_adrs : List Adr :=
  let required := [[("pattern", "supervision_strategy")],
                   [("pattern", "consistent_hashing")],
                   [("pattern", "rust_nif_integration")]]
  (required.enum.map (fun p =>
    { toAdrTemplate := generate_adr p.2
      id := adrId (p.1 + 1)
      status := "needs_approval" }))

/-! ## SmartTaskGenerator -/

/-- A generated task (the dict built at the end of
`SmartTaskGenerator._create_verified_task`). -/
structure Task where
  id : String
  title : String
  description : String
  file : String
  line : Nat
  type : String
  pattern : String
  hours : Nat
  fact_verified : Bool
  research : ResearchNote
  implementation_notes : String
  priority : String
deriving DecidableEq, Repr

/-- `str.replace("_", " ")`. -/
def underscoreToSpace (s : String) : String :=
  ⟨s.data.map (fun c => if c = '_' then ' ' else c)⟩

/-- `str.strip()`: drop leading and trailing whitespace. -/
def stripStr (s : String) : String :=
  ⟨(s.data.dropWhile isSpaceChar).reverse.dropWhile isSpaceChar |>.reverse⟩

/-- The topic-classification of a marker line (`_create_verified_task`,
pattern extraction): first match wins over the lower-cased raw text. -/
def classifyPattern (content : String) : String :=
  if strContains (lowerStr content) "consistent" then "consistent_hashing"
  else if strContains (lowerStr content) "gossip" then "gossip_protocol"
  else if strContains (lowerStr content) "nif" then "rust_nif"
  else "general"

/-- The task record built at the end of `_create_verified_task` once the
duplicate check has passed. -/
def mkTask (file_path : SrcFile) (line_num : Nat) (content task_type pattern : String)
    (research : ResearchNote) : Task :=
  { id := "SMART-" ++ toString (fullPath file_path).length ++ ":" ++ toString line_num
    title := "Implement " ++ underscoreToSpace pattern ++ " in " ++ file_path.name
    description := stripStr content
    file := fullPath file_path
    line := line_num
    type := task_type
    pattern := pattern
    hours := if task_type = "stub" then 3 else 2
    fact_verified := true
    research := research
    implementation_notes := research.recommendation
    priority := if task_type = "stub" then "high" else "medium" }

/-- `SmartTaskGenerator._create_verified_task`: classify the marker's topic,
FACT-check it against the database with the file's stem, and either skip
(`none`) or build the task. -/
def _create_verified_task (db : List DbEntry) (file_path : SrcFile) (line_num : Nat)
    (content task_type : String) : Option Task :=
  let pattern := classifyPattern content
  let fact_check := check_implementation_exists db pattern (stem file_path.name)
  if fact_check.recommendation = "skip" then none
  else some (mkTask file_path line_num content task_type pattern (research_erlang_pattern pattern))

/-- A work marker found during the scan: the file it came from, its 1-based
line number, the raw line text, and its kind (`"todo"` or `"stub"`). -/
structure Marker where
  file : SrcFile
  line : Nat
  text : String
  kind : String
deriving DecidableEq, Repr

/-- Is a line a TODO marker (`'TODO' in line`)? -/
def isTodoLine (line : String) : Bool :=
  strContains line "TODO"

/-- Is a line a stub marker (`'error, unknown_request' in line or
'error, not_implemented' in line`)? -/
def isStubLine (line : String) : Bool :=
  strContains line "error, unknown_request" || strContains line "error, not_implemented"

/-- The numbered lines of a file (`enumerate(content.split('\n'), 1)`). -/
def numberedLines (f : SrcFile) : List (Nat × String) :=
  f.lines.enumFrom 1

/-- The markers one file contributes, in processing order: first every TODO
line in line order, then every stub line in line order (the two scan loops
of `generate_smart_tasks`). -/
def fileMarkers (f : SrcFile) : List Marker :=
  ((numberedLines f).filter (fun p => isTodoLine p.2)).map
      (fun p => ⟨f, p.1, p.2, "todo"⟩) ++
    ((numberedLines f).filter (fun p => isStubLine p.2)).map
      (fun p => ⟨f, p.1, p.2, "stub"⟩)

/-- The fixed scan directory `<root>/platform/memory-service/erlang/src`. -/
def memoryDir (root : String) : String :=
  root ++ "/platform/memory-service/erlang/src"

/-- The files the marker scan visits: `memory_dir.glob("*.erl")`. -/
def scannedFiles (fs : FileSystem) (root : String) : List SrcFile :=
  globErl fs (memoryDir root)

/-- All candidate markers of a run, in processing order. -/
def markerSeq (fs : FileSystem) (root : String) : List Marker :=
  (scannedFiles fs root).flatMap fileMarkers

/-- The tasks that survive duplicate filtering, before the top-10 cap. -/
def survivorTasks (fs : FileSystem) (root : String) : List Task :=
  let db := build_code_database fs root
  (markerSeq fs root).filterMap
    (fun m => _create_verified_task db m.file m.line m.text m.kind)

/-- The result record of `generate_smart_tasks`. -/
structure GenResult where
  tasks : List Task
  adrs : List Adr
  total_found : Nat
deriving DecidableEq, Repr

/-- `SmartTaskGenerator.generate_smart_tasks`: scan, filter, cap at 10,
attach the three ADRs, and report the pre-cap survivor count. -/
def generate_smart_tasks (fs : FileSystem) (root : String) : GenResult :=
  { tasks := (survivorTasks fs root).take 10
    adrs := _generate_required_adrs
    total_found := (survivorTasks fs root).length }

/-! ## Concrete fixtures used for witnesses and counterexamples -/

/-- The spec scenario's `a.erl`: a TODO about consistent hashing at line 5,
inside the scanned subdirectory. -/
def fA : SrcFile :=
  ⟨"/r/platform/memory-service/erlang/src", "a.erl",
   ["-module(a).", "", "start() ->", "    ok.",
    "% TODO: implement consistent hashing ring"]⟩

/-- The spec scenario's second file: no routine named `consistent_hashing`. -/
def fB : SrcFile :=
  ⟨"/r/platform/memory-service/erlang/src", "b.erl",
   ["-module(b).", "noop() ->", "    ok."]⟩

/-- The spec scenario's filesystem (two files under root `/r`). -/
def fsC2 : FileSystem := [fA, fB]

/-- A file with a stub marker at line 1 and a TODO marker at line 5; the
scan visits the TODO pass first, so the stub is processed after the later
TODO line. -/
def fC4 : SrcFile :=
  ⟨"/r/platform/memory-service/erlang/src", "c.erl",
   ["reply() -> {error, not_implemented}.", "", "", "", "% TODO gossip"]⟩

/-- Filesystem for the processing-order counterexample. -/
def fsC4 : FileSystem := [fC4]

/-- A small file used to exercise task construction directly. -/
def f0 : SrcFile := ⟨"/d", "a.erl", []⟩

/-- A one-entry database whose path contains the letter `a`, so the
duplicate check against stem `a` produces a finding. -/
def db0 : List DbEntry := [⟨"/r/x/a.erl", []⟩]

/-- The task built from `f0`'s line 1 with text `"x"` and kind `"stub"`. -/
def t0 : Task := mkTask f0 1 "x" "stub" "general" (research_erlang_pattern "general")

/-! ## Ordering predicates (from the spec's wording, for comparison) -/

/-- The spec's processing-order property: markers in file-then-line order
(lexicographic on full path, then line number). -/
def markersInFileLineOrder (ms : List Marker) : Prop :=
  ms.Chain' (fun a b =>
    fullPath a.file < fullPath b.file ∨ (fullPath a.file = fullPath b.file ∧ a.line ≤ b.line))

/-- The spec's output-order property: tasks ordered by source file path then
line number. -/
def tasksInFileLineOrder (ts : List Task) : Prop :=
  ts.Chain' (fun a b => a.file < b.file ∨ (a.file = b.file ∧ a.line ≤ b.line))

/-! ## Basic lemmas -/

theorem containsSub_iff (pat hay : List Char) :
    containsSub pat hay = true ↔ pat <:+: hay := by
  induction hay with
  | nil =>
    simp [containsSub, List.isEmpty_iff]
  | cons c rest ih =>
    simp only [containsSub, Bool.or_eq_true, List.isPrefixOf_iff_prefix, ih,
      List.infix_cons_iff]

theorem strContains_iff (hay pat : String) :
    strContains hay pat = true ↔ pat.data <:+: hay.data :=
  containsSub_iff pat.data hay.data

theorem stemChars_prefix (name : List Char) : stemChars name <+: name := by
  unfold stemChars
  split
  · exact List.take_prefix _ _
  · exact List.prefix_refl _

theorem data_fullPath (f : SrcFile) :
    (fullPath f).data = f.dir.data ++ '/' :: f.name.data := by
  show (f.dir ++ "/" ++ f.name).data = _
  rw [String.data_append, String.data_append, List.append_assoc]
  rfl

theorem stem_infix_fullPath (f : SrcFile) :
    (stem f.name).data <:+: (fullPath f).data := by
  have h1 : (stem f.name).data <+: f.name.data := stemChars_prefix f.name.data
  have h2 : f.name.data <:+ (fullPath f).data := by
    rw [data_fullPath]
    exact (List.suffix_cons '/' f.name.data).trans (List.suffix_append _ _)
  exact h1.isInfix.trans h2.isInfix

theorem strContains_fullPath_stem (f : SrcFile) :
    strContains (fullPath f) (stem f.name) = true :=
  (strContains_iff _ _).mpr (stem_infix_fullPath f)

theorem mem_scannedFiles {fs : FileSystem} {root : String} {f : SrcFile} :
    f ∈ scannedFiles fs root ↔
      f ∈ fs ∧ f.dir = memoryDir root ∧ erlName f.name = true := by
  simp [scannedFiles, globErl, List.mem_filter, memoryDir]

theorem mem_rglobErl {fs : FileSystem} {root : String} {f : SrcFile} :
    f ∈ rglobErl fs root ↔
      f ∈ fs ∧ underRoot root f.dir = true ∧ erlName f.name = true := by
  simp [rglobErl, List.mem_filter]

theorem underRoot_memoryDir (root : String) : underRoot root (memoryDir root) = true := by
  unfold underRoot memoryDir
  apply Bool.or_eq_true_iff.mpr
  right
  apply (List.isPrefixOf_iff_prefix).mpr
  rw [String.data_append, String.data_append]
  exact (List.prefix_append_right_inj root.data).mpr ⟨_, rfl⟩

theorem scanned_mem_rglob {fs : FileSystem} {root : String} {f : SrcFile}
    (h : f ∈ scannedFiles fs root) : f ∈ rglobErl fs root := by
  obtain ⟨hmem, hdir, herl⟩ := mem_scannedFiles.mp h
  exact mem_rglobErl.mpr ⟨hmem, hdir ▸ underRoot_memoryDir root, herl⟩

theorem scanned_mem_db {fs : FileSystem} {root : String} {f : SrcFile}
    (h : f ∈ scannedFiles fs root) :
    (⟨fullPath f, findFuns (contentChars f)⟩ : DbEntry) ∈ build_code_database fs root :=
  List.mem_map.mpr ⟨f, scanned_mem_rglob h, rfl⟩

/-- The central fact behind the generator's vacuity: for a scanned file, the
duplicate check against the file's own stem always finds a `similar_module`
match (the file itself is indexed, and its stem is a substring of its own
path), so the verdict is always `skip`. -/
theorem check_skip_of_scanned {fs : FileSystem} {root : String} {f : SrcFile}
    (h : f ∈ scannedFiles fs root) (fn : String) :
    (⟨fullPath f, "similar_module", (7 : ℚ) / 10⟩ : Finding) ∈
      (check_implementation_exists (build_code_database fs root) fn (stem f.name)).findings ∧
    (check_implementation_exists (build_code_database fs root) fn (stem f.name)).recommendation
      = "skip" := by
  have hfd : (⟨fullPath f, "similar_module", (7 : ℚ) / 10⟩ : Finding) ∈
      (check_implementation_exists (build_code_database fs root) fn (stem f.name)).findings := by
    apply List.mem_flatMap.mpr
    refine ⟨⟨fullPath f, findFuns (contentChars f)⟩, scanned_mem_db h, ?_⟩
    apply List.mem_append_right
    rw [if_pos (strContains_fullPath_stem f)]
    exact List.mem_singleton.mpr rfl
  have hne : (check_implementation_exists (build_code_database fs root) fn
      (stem f.name)).findings ≠ [] := List.ne_nil_of_mem hfd
  refine ⟨hfd, ?_⟩
  have hI : (check_implementation_exists (build_code_database fs root) fn
      (stem f.name)).findings.isEmpty = false := by
    rcases hF : (check_implementation_exists (build_code_database fs root) fn
        (stem f.name)).findings with _ | ⟨a, l⟩
    · exact absurd hF hne
    · rfl
  show (if (check_implementation_exists (build_code_database fs root) fn
      (stem f.name)).findings.isEmpty then "implement" else "skip") = "skip"
  rw [hI]
  rfl

theorem marker_file_scanned {fs : FileSystem} {root : String} {m : Marker}
    (h : m ∈ markerSeq fs root) : m.file ∈ scannedFiles fs root := by
  obtain ⟨f, hf, hm⟩ := List.mem_flatMap.mp h
  have : m.file = f := by
    unfold fileMarkers at hm
    rcases List.mem_append.mp hm with hm' | hm' <;>
      · obtain ⟨p, _, hp⟩ := List.mem_map.mp hm'
        exact hp ▸ rfl
  exact this ▸ hf

theorem create_none_of_mem_markerSeq {fs : FileSystem} {root : String} {m : Marker}
    (h : m ∈ markerSeq fs root) :
    _create_verified_task (build_code_database fs root) m.file m.line m.text m.kind = none := by
  unfold _create_verified_task
  rw [if_pos (check_skip_of_scanned (marker_file_scanned h) _).2]

theorem survivorTasks_eq_nil (fs : FileSystem) (root : String) :
    survivorTasks fs root = [] := by
  apply List.filterMap_eq_nil_iff.mpr
  intro m hm
  exact create_none_of_mem_markerSeq hm

theorem check_exists_def (db : List DbEntry) (fn mp : String) :
    (check_implementation_exists db fn mp).exists_ =
      decide (0 < (check_implementation_exists db fn mp).findings.length) := rfl

theorem check_recommendation_def (db : List DbEntry) (fn mp : String) :
    (check_implementation_exists db fn mp).recommendation =
      if (check_implementation_exists db fn mp).findings.isEmpty then "implement" else "skip" :=
  rfl

theorem check_exists_iff (db : List DbEntry) (fn mp : String) :
    (check_implementation_exists db fn mp).exists_ = true ↔
      (check_implementation_exists db fn mp).findings ≠ [] := by
  rw [check_exists_def]
  simp [List.length_pos]

theorem check_skip_iff (db : List DbEntry) (fn mp : String) :
    (check_implementation_exists db fn mp).recommendation = "skip" ↔
      (check_implementation_exists db fn mp).findings ≠ [] := by
  rcases hF : (check_implementation_exists db fn mp).findings with _ | ⟨a, l⟩
  · rw [check_recommendation_def, hF]
    exact iff_of_false (by decide) (by simp)
  · rw [check_recommendation_def, hF]
    exact iff_of_true rfl (by simp)

theorem create_none_of_findings {db : List DbEntry} {f : SrcFile} {line : Nat}
    {content kind : String}
    (h : (check_implementation_exists db (classifyPattern content) (stem f.name)).findings ≠ []) :
    _create_verified_task db f line content kind = none := by
  unfold _create_verified_task
  rw [if_pos ((check_skip_iff _ _ _).mpr h)]

theorem pairwise_fst_lt_enumFrom (n : Nat) (l : List String) :
    (l.enumFrom n).Pairwise (fun p q => p.1 < q.1) := by
  induction l generalizing n with
  | nil => simp
  | cons x xs ih =>
    refine List.Pairwise.cons (fun q hq => ?_) (ih (n + 1))
    obtain ⟨i, s⟩ := q
    exact Nat.lt_of_succ_le (List.mem_enumFrom hq).1

/-- The processing order the source actually implements: within one file,
every TODO line in increasing line order, then every stub line in
increasing line order. -/
theorem fileMarkers_two_pass_order (f : SrcFile) :
    (fileMarkers f).Chain' (fun a b =>
      (a.kind = "todo" ∧ b.kind = "stub") ∨ (a.kind = b.kind ∧ a.line ≤ b.line)) := by
  apply List.Pairwise.chain'
  unfold fileMarkers
  apply List.pairwise_append.mpr
  refine ⟨?_, ?_, ?_⟩
  · apply List.pairwise_map.mpr
    exact (List.Pairwise.sublist (List.filter_sublist _)
      (pairwise_fst_lt_enumFrom 1 f.lines)).imp
      (fun h => Or.inr ⟨rfl, Nat.le_of_lt h⟩)
  · apply List.pairwise_map.mpr
    exact (List.Pairwise.sublist (List.filter_sublist _)
      (pairwise_fst_lt_enumFrom 1 f.lines)).imp
      (fun h => Or.inr ⟨rfl, Nat.le_of_lt h⟩)
  · intro a ha b hb
    obtain ⟨p, -, rfl⟩ := List.mem_map.mp ha
    obtain ⟨q, -, rfl⟩ := List.mem_map.mp hb
    exact Or.inl ⟨rfl, rfl⟩

/-! ## Claims -/

/-- C1: whenever the scanned subdirectory lies under the indexed root (which
is always the case — the scan directory is `<root>/platform/...`), every
marker found is dropped: the duplicate check against the marker's own file
stem always yields a `similar_module` finding with recommendation `skip`,
so `_create_verified_task` returns `none` for every marker, the returned
task list is empty and `total_found` is `0`. -/
theorem C1_generator_vacuous (fs : FileSystem) (root : String) :
    (∀ m ∈ markerSeq fs root,
      (⟨fullPath m.file, "similar_module", (7 : ℚ) / 10⟩ : Finding) ∈
        (check_implementation_exists (build_code_database fs root)
          (classifyPattern m.text) (stem m.file.name)).findings ∧
      (check_implementation_exists (build_code_database fs root)
          (classifyPattern m.text) (stem m.file.name)).recommendation = "skip" ∧
      _create_verified_task (build_code_database fs root) m.file m.line m.text m.kind = none) ∧
    (generate_smart_tasks fs root).tasks = [] ∧
    (generate_smart_tasks fs root).total_found = 0 := by
  refine ⟨fun m hm => ?_, ?_, ?_⟩
  · obtain ⟨hfd, hskip⟩ := check_skip_of_scanned (marker_file_scanned hm) (classifyPattern m.text)
    exact ⟨hfd, hskip, create_none_of_mem_markerSeq hm⟩
  · show (survivorTasks fs root).take 10 = []
    rw [survivorTasks_eq_nil]
    rfl
  · show (survivorTasks fs root).length = 0
    rw [survivorTasks_eq_nil]
    rfl

/-- Witness for C1 at a concrete input: the spec-scenario filesystem has a
marker (the TODO at line 5 of `a.erl`), and the theorem drops it. -/
theorem C1_generator_vacuous_witness :
    (⟨fA, 5, "% TODO: implement consistent hashing ring", "todo"⟩ : Marker) ∈
      markerSeq fsC2 "/r" ∧
    _create_verified_task (build_code_database fsC2 "/r") fA 5
      "% TODO: implement consistent hashing ring" "todo" = none ∧
    (generate_smart_tasks fsC2 "/r").tasks = [] := by
  have h := (C1_generator_vacuous fsC2 "/r").1
    ⟨fA, 5, "% TODO: implement consistent hashing ring", "todo"⟩ (by decide)
  exact ⟨by decide, h.2.2, (C1_generator_vacuous fsC2 "/r").2.1⟩

/-- C2 (evaluation at the spec scenario): the filesystem holds exactly the
two files of the scenario, the scan finds exactly the line-5 TODO marker of
`a.erl`, no routine named `consistent_hashing` exists in the index — yet the
generator returns no task at all (its duplicate check matches the marker's
own file), contradicting the specified single `consistent_hashing` task. -/
theorem C2_scenario_yields_no_task :
    markerSeq fsC2 "/r" =
      [⟨fA, 5, "% TODO: implement consistent hashing ring", "todo"⟩] ∧
    classifyPattern "% TODO: implement consistent hashing ring" = "consistent_hashing" ∧
    ((build_code_database fsC2 "/r").flatMap DbEntry.functions).contains
      "consistent_hashing" = false ∧
    (generate_smart_tasks fsC2 "/r").tasks = [] ∧
    (generate_smart_tasks fsC2 "/r").total_found = 0 := by
  refine ⟨by decide, by decide, by decide, ?_, ?_⟩
  · show (survivorTasks fsC2 "/r").take 10 = []
    rw [survivorTasks_eq_nil]
    rfl
  · show (survivorTasks fsC2 "/r").length = 0
    rw [survivorTasks_eq_nil]
    rfl

/-- C3: the verdict of `check_implementation_exists` satisfies
`exists == (findings nonempty)` and `recommendation == skip` iff `exists`;
and any marker whose (topic, file-stem) check yields at least one finding
produces no task. -/
theorem C3_verdict_invariants (db : List DbEntry) (fn mp : String) (f : SrcFile)
    (line : Nat) (content kind : String) :
    ((check_implementation_exists db fn mp).exists_ = true ↔
      (check_implementation_exists db fn mp).findings ≠ []) ∧
    ((check_implementation_exists db fn mp).recommendation = "skip" ↔
      (check_implementation_exists db fn mp).exists_ = true) ∧
    ((check_implementation_exists db (classifyPattern content) (stem f.name)).findings ≠ [] →
      _create_verified_task db f line content kind = none) := by
  refine ⟨check_exists_iff db fn mp,
    (check_skip_iff db fn mp).trans (check_exists_iff db fn mp).symm,
    fun h => create_none_of_findings h⟩

/-- Witness for C3 at a concrete input: a database entry whose path contains
the stem `a`, so the check yields a finding and the marker is dropped. -/
theorem C3_verdict_invariants_witness :
    (check_implementation_exists db0 (classifyPattern "x TODO") (stem f0.name)).findings ≠ [] ∧
    _create_verified_task db0 f0 1 "x TODO" "todo" = none := by
  refine ⟨by decide, (C3_verdict_invariants db0 "q" "a" f0 1 "x TODO" "todo").2.2 (by decide)⟩

/-- C4 counterexample: in a file with a stub marker at line 1 and a TODO
marker at line 5, the TODO is processed first (the TODO pass runs before the
stub pass), so markers are not processed in file-then-line order. -/
theorem C4_counterexample :
    (markerSeq fsC4 "/r").map (fun m => (m.line, m.kind)) = [(5, "todo"), (1, "stub")] ∧
    ¬ markersInFileLineOrder (markerSeq fsC4 "/r") := by
  have hseq : markerSeq fsC4 "/r" =
      [⟨fC4, 5, "% TODO gossip", "todo"⟩,
       ⟨fC4, 1, "reply() -> {error, not_implemented}.", "stub"⟩] := by decide
  constructor
  · rw [hseq]
    rfl
  · intro hord
    unfold markersInFileLineOrder at hord
    rw [hseq] at hord
    obtain ⟨hR, -⟩ := List.chain'_cons.mp hord
    rcases hR with h | ⟨-, h⟩
    · exact lt_irrefl _ h
    · exact absurd h (by decide)

/-- C4 amended: markers are processed file by file in two passes — all TODO
lines of a file in increasing line order, then all its stub lines in
increasing line order — not globally in file-then-line order; the returned
tasks sequence (which is always empty) is trivially ordered by source file
path then line number. -/
theorem C4_processing_and_output_order (fs : FileSystem) (root : String) :
    (∀ f : SrcFile, (fileMarkers f).Chain' (fun a b =>
      (a.kind = "todo" ∧ b.kind = "stub") ∨ (a.kind = b.kind ∧ a.line ≤ b.line))) ∧
    tasksInFileLineOrder ((generate_smart_tasks fs root).tasks) := by
  refine ⟨fileMarkers_two_pass_order, ?_⟩
  show ((survivorTasks fs root).take 10).Chain' _
  rw [survivorTasks_eq_nil]
  exact List.chain'_nil

/-- C5: the returned task list is the survivor list truncated to its first
10 elements (hence has length at most 10), and `total_found` is the size of
the pre-truncation survivor list. -/
theorem C5_cap_and_total_found (fs : FileSystem) (root : String) :
    (generate_smart_tasks fs root).tasks = (survivorTasks fs root).take 10 ∧
    (generate_smart_tasks fs root).tasks.length ≤ 10 ∧
    (generate_smart_tasks fs root).total_found = (survivorTasks fs root).length := by
  refine ⟨rfl, ?_, rfl⟩
  show ((survivorTasks fs root).take 10).length ≤ 10
  simp [List.length_take]

/-- C6: topic classification is total and first-match-wins over the fixed
ordered vocabulary — `consistent_hashing` iff the lower-cased text contains
"consistent", else `gossip_protocol` iff it contains "gossip", else
`rust_nif` iff it contains "nif", else `general`; every marker text maps to
exactly one of the four topics. -/
theorem C6_topic_classification (content : String) :
    (classifyPattern content = "consistent_hashing" ↔
      strContains (lowerStr content) "consistent" = true) ∧
    (classifyPattern content = "gossip_protocol" ↔
      (strContains (lowerStr content) "consistent" = false ∧
       strContains (lowerStr content) "gossip" = true)) ∧
    (classifyPattern content = "rust_nif" ↔
      (strContains (lowerStr content) "consistent" = false ∧
       strContains (lowerStr content) "gossip" = false ∧
       strContains (lowerStr content) "nif" = true)) ∧
    (classifyPattern content = "general" ↔
      (strContains (lowerStr content) "consistent" = false ∧
       strContains (lowerStr content) "gossip" = false ∧
       strContains (lowerStr content) "nif" = false)) ∧
    classifyPattern content ∈
      ["consistent_hashing", "gossip_protocol", "rust_nif", "general"] := by
  unfold classifyPattern
  cases hc : strContains (lowerStr content) "consistent" <;>
    cases hg : strContains (lowerStr content) "gossip" <;>
      cases hn : strContains (lowerStr content) "nif" <;>
        simp_all

/-- C7: every task built by `_create_verified_task` maps `stub` to priority
`high` with 3 estimated hours, and `todo` to priority `medium` with 2. -/
theorem C7_priority_mapping (db : List DbEntry) (f : SrcFile) (line : Nat)
    (content ttype : String) (t : Task) :
    _create_verified_task db f line content ttype = some t →
    (t.type = "stub" → t.priority = "high" ∧ t.hours = 3) ∧
    (t.type = "todo" → t.priority = "medium" ∧ t.hours = 2) := by
  intro h
  simp only [_create_verified_task] at h
  split at h
  · simp at h
  · rw [Option.some_inj] at h
    subst h
    refine ⟨fun hstub => ?_, fun htodo => ?_⟩
    · have h1 : ttype = "stub" := hstub
      subst h1
      exact ⟨rfl, rfl⟩
    · have h1 : ttype = "todo" := htodo
      subst h1
      exact ⟨rfl, rfl⟩

/-- Witness for C7 at a concrete input: with an empty database the duplicate
check passes and a concrete stub task is built with priority `high` and
3 hours. -/
theorem C7_priority_mapping_witness :
    _create_verified_task [] f0 1 "x" "stub" = some t0 ∧
    t0.priority = "high" ∧ t0.hours = 3 := by
  have h := (C7_priority_mapping [] f0 1 "x" "stub" t0 (by decide)).1 (by decide)
  exact ⟨by decide, h.1, h.2⟩

/-- C8: every run returns exactly the three statically generated ADRs, with
ids `ADR-001`, `ADR-002`, `ADR-003` in order, status `needs_approval`, at
least two options each, and a decision consistent with one of the options
(the option's name before the colon is a prefix of the decision). -/
theorem C8_adr_completeness (fs : FileSystem) (root : String) :
    (generate_smart_tasks fs root).adrs = _generate_required_adrs ∧
    _generate_required_adrs.map Adr.id = ["ADR-001", "ADR-002", "ADR-003"] ∧
    _generate_required_adrs.all (fun a =>
      a.status == "needs_approval" && decide (2 ≤ a.options.length) &&
      a.options.any (fun o =>
        List.isPrefixOf (o.data.takeWhile (fun c => c ≠ ':')) a.decision.data)) = true :=
  ⟨rfl, by decide, by decide⟩

/-- C9: any decision topic outside the three known keys falls back to the
supervision-strategy template instead of raising an error. -/
theorem C9_unknown_topic_fallback (ctx : List (String × String))
    (h1 : ((ctx.lookup "pattern").getD "default") ≠ "supervision_strategy")
    (h2 : ((ctx.lookup "pattern").getD "default") ≠ "consistent_hashing")
    (h3 : ((ctx.lookup "pattern").getD "default") ≠ "rust_nif_integration") :
    generate_adr ctx = supervisionTemplate := by
  show (if ((ctx.lookup "pattern").getD "default") = "supervision_strategy"
      then supervisionTemplate
      else if ((ctx.lookup "pattern").getD "default") = "consistent_hashing"
      then consistentHashingTemplate
      else if ((ctx.lookup "pattern").getD "default") = "rust_nif_integration"
      then rustNifTemplate
      else supervisionTemplate) = supervisionTemplate
  rw [if_neg h1, if_neg h2, if_neg h3]

/-- Witness for C9 at a concrete input: an unknown topic returns the
supervision-strategy template. -/
theorem C9_unknown_topic_fallback_witness :
    generate_adr [("pattern", "memory_sharding")] = supervisionTemplate :=
  C9_unknown_topic_fallback [("pattern", "memory_sharding")]
    (by decide) (by decide) (by decide)

/-- C10: the marker scan covers exactly the `.erl` files directly inside
`<root>/platform/memory-service/erlang/src`, while the duplicate-check index
covers every `.erl` file recursively under `root` (and contains every
scanned file); every marker comes from a scanned file, so markers in any
other indexed file can never yield tasks (indeed no task is ever yielded). -/
theorem C10_scan_scope (fs : FileSystem) (root : String) (f : SrcFile) :
    (f ∈ scannedFiles fs root ↔
      f ∈ fs ∧ f.dir = memoryDir root ∧ erlName f.name = true) ∧
    (f ∈ rglobErl fs root ↔
      f ∈ fs ∧ underRoot root f.dir = true ∧ erlName f.name = true) ∧
    (f ∈ scannedFiles fs root → f ∈ rglobErl fs root) ∧
    (∀ m ∈ markerSeq fs root, m.file ∈ scannedFiles fs root) ∧
    (generate_smart_tasks fs root).tasks = [] := by
  refine ⟨mem_scannedFiles, mem_rglobErl, fun h => scanned_mem_rglob h,
    fun m hm => marker_file_scanned hm, ?_⟩
  show (survivorTasks fs root).take 10 = []
  rw [survivorTasks_eq_nil]
  rfl

/-- Witness for C10 at a concrete input: `a.erl` is scanned, indexed, and is
the source file of the scenario's marker. -/
theorem C10_scan_scope_witness :
    fA ∈ scannedFiles fsC2 "/r" ∧ fA ∈ rglobErl fsC2 "/r" ∧
    (⟨fA, 5, "% TODO: implement consistent hashing ring", "todo"⟩ : Marker).file ∈
      scannedFiles fsC2 "/r" := by
  refine ⟨by decide, (C10_scan_scope fsC2 "/r" fA).2.2.1 (by decide),
    (C10_scan_scope fsC2 "/r" fA).2.2.2.1 _ (by decide)⟩

end SmartTaskGen

